import Mathlib

/-!
Verification of the edge security gateway of the artofficialintelligence
repository: error envelope and correlation middleware (`server/errors.ts`),
CSP nonce and security headers (`server/security.ts`), the Redis-backed
rate limiter (`server/rateLimit.ts`), the CORS gate, the HTTPS enforcer and
the root HTML route (`server.ts`), and the environment validator
(`config/environment.ts`). Each definition is a shallow embedding of the
corresponding TypeScript function; randomness (the generated nonce, the
correlation UUID, the current timestamp) and I/O outcomes (the template
read, Redis reachability) are passed in as explicit parameters.
-/

/-! ## JavaScript string primitives

The runtime's string operations (`String.prototype.split`, `trim`,
`startsWith`, `toLowerCase`, `Number(...)`) are modelled by structurally
recursive functions over the character list of a string, so every
embedded definition evaluates on concrete inputs. -/

/-- Worker for `jsSplit`: scans the character list, cutting at each
occurrence of the (nonempty) separator; the fuel bounds the recursion by
the input length. -/
def splitChunks (sep : List Char) : Nat → List Char → List Char × List (List Char)
  | _, [] => ([], [])
  | 0, l => (l, [])
  | fuel + 1, c :: cs =>
      if sep.isPrefixOf (c :: cs) then
        let r := splitChunks sep fuel ((c :: cs).drop sep.length)
        ([], r.1 :: r.2)
      else
        let r := splitChunks sep fuel cs
        (c :: r.1, r.2)

/-- JavaScript `s.split(sep)` for a nonempty literal separator. -/
def jsSplit (sep s : String) : List String :=
  let r := splitChunks sep.data (s.data.length + 1) s.data
  (r.1 :: r.2).map (fun l => ⟨l⟩)

/-- JavaScript `s.startsWith(p)`. -/
def jsStartsWith (s p : String) : Bool :=
  p.data.isPrefixOf s.data

/-- JavaScript `s.trim()`. -/
def jsTrim (s : String) : String :=
  ⟨((s.data.dropWhile Char.isWhitespace).reverse.dropWhile
      Char.isWhitespace).reverse⟩

/-- JavaScript `s.toLowerCase()` on ASCII scheme names. -/
def jsToLower (s : String) : String :=
  ⟨s.data.map Char.toLower⟩

/-- JavaScript `arr.join(sep)`. -/
def jsJoin (sep : String) : List String → String
  | [] => ""
  | [a] => a
  | a :: rest => a ++ sep ++ jsJoin sep rest

/-- The numeric value of a nonempty decimal digit sequence. -/
def decDigits : List Char → Option Nat
  | [] => none
  | ds =>
      if ds.all Char.isDigit then
        some (ds.foldl (fun a c => a * 10 + (c.toNat - 48)) 0)
      else none

/-! ## Error model (`src/server/errors.ts`) -/

/-- `HttpError` from `errors.ts`: a message, an HTTP status (default 500)
and an optional machine-readable code. -/
structure HttpError where
  message : String
  status : Nat
  code : Option String
deriving Repr, DecidableEq

/-- A thrown JavaScript error reaching the error renderer: either an
`HttpError` or a plain `Error` carrying only a message. -/
inductive JsError where
  | http : HttpError → JsError
  | plain : String → JsError
deriving Repr, DecidableEq

/-- `err instanceof HttpError ? err.status : 500` -/
def JsError.status : JsError → Nat
  | .http e => e.status
  | .plain _ => 500

/-- `err.message` -/
def JsError.message : JsError → String
  | .http e => e.message
  | .plain m => m

/-- `err instanceof HttpError && err.code ? { code: err.code } : {}` -/
def JsError.code : JsError → Option String
  | .http e => e.code
  | .plain _ => none

/-- The `error` field of the envelope. -/
structure ErrorDetails where
  message : String
  code : Option String
deriving Repr, DecidableEq

/-- The `meta` field of the envelope. -/
structure ErrorMeta where
  timestamp : String
  correlationId : String
deriving Repr, DecidableEq

/-- The error envelope `{ success: false, error, meta }`. -/
structure ErrorResponse where
  success : Bool
  error : ErrorDetails
  meta : ErrorMeta
deriving Repr, DecidableEq

/-- `createErrorResponse` from `errors.ts`. The timestamp
(`new Date().toISOString()`) is passed in explicitly. -/
def createErrorResponse (err : JsError) (correlationId timestamp : String) :
    ErrorResponse :=
  let status := err.status
  let message := if 500 ≤ status then "Internal server error" else err.message
  { success := false
    error := { message := message, code := err.code }
    meta := { timestamp := timestamp, correlationId := correlationId } }

/-! ## CSP directives and security headers (`src/server/security.ts`) -/

/-- The directive record built by `createDirectives`. -/
structure Directives where
  defaultSrc : List String
  scriptSrc : List String
  styleSrc : List String
  fontSrc : List String
  imgSrc : List String
  connectSrc : List String
deriving Repr, DecidableEq

/-- `createDirectives` from `security.ts`, reading the per-request nonce
from `res.locals.nonce`. The function takes no mode input: the source
consults only the nonce. -/
def createDirectives (nonce : String) : Directives :=
  { defaultSrc := ["\x27self\x27"]
    scriptSrc :=
      ["\x27self\x27", "https://cdn.jsdelivr.net",
       "\x27nonce-" ++ nonce ++ "\x27"]
    styleSrc :=
      ["\x27self\x27", "\x27nonce-" ++ nonce ++ "\x27",
       "https://fonts.googleapis.com"]
    fontSrc := ["\x27self\x27", "https://fonts.gstatic.com"]
    imgSrc := ["\x27self\x27", "data:", "https:"]
    connectSrc :=
      ["\x27self\x27", "https://api.artofficial-intelligence.com", "ws:"] }

/-- The runtime mode (`NODE_ENV`). -/
inductive Mode where
  | development
  | production
  | test
deriving Repr, DecidableEq

/-- The directive set the server uses in a given mode: `createServer`
installs `securityMiddleware()` unconditionally and `createDirectives`
never reads `NODE_ENV`, so the mode argument is ignored by the code. -/
def directivesForMode (_mode : Mode) (nonce : String) : Directives :=
  createDirectives nonce

/-- Helmet renders each directive as `name value1 value2 ...` and joins the
directives with a semicolon. -/
def renderDirectives (d : Directives) : String :=
  String.intercalate ";"
    ["default-src " ++ String.intercalate " " d.defaultSrc,
     "script-src " ++ String.intercalate " " d.scriptSrc,
     "style-src " ++ String.intercalate " " d.styleSrc,
     "font-src " ++ String.intercalate " " d.fontSrc,
     "img-src " ++ String.intercalate " " d.imgSrc,
     "connect-src " ++ String.intercalate " " d.connectSrc]

/-- The response headers written by `securityMiddleware()`:
`helmet.contentSecurityPolicy` (with `createDirectives`),
`helmet.frameguard({ action: "deny" })`, `helmet.noSniff()` and
`helmet.hsts({ maxAge: 31536000 })`, in source order. -/
def securityHeaders (nonce : String) : List (String × String) :=
  [("Content-Security-Policy", renderDirectives (createDirectives nonce)),
   ("X-Frame-Options", "DENY"),
   ("X-Content-Type-Options", "nosniff"),
   ("Strict-Transport-Security", "max-age=31536000; includeSubDomains")]

/-- Headers on a response that traverses the full middleware chain of
`createServer`: `requestIdMiddleware()` sets `X-Correlation-Id`, then
`securityMiddleware()` adds the helmet headers. -/
def pipelineHeaders (correlationId nonce : String) : List (String × String) :=
  ("X-Correlation-Id", correlationId) :: securityHeaders nonce

/-! ## Root HTML route (`server.ts`, `GET /`) -/

/-- A rendered HTTP response for the root route. -/
structure RootResponse where
  status : Nat
  headers : List (String × String)
  body : String
deriving Repr, DecidableEq

/-- The `GET /` handler on the success path: the template read succeeded
and the handler substitutes every occurrence of `__CSP_NONCE__` with
`res.locals.nonce` (`html.split("__CSP_NONCE__").join(res.locals.nonce)`). -/
def serveRoot (nonce correlationId indexHtml : String) : RootResponse :=
  { status := 200
    headers := pipelineHeaders correlationId nonce
    body := jsJoin nonce (jsSplit "__CSP_NONCE__" indexHtml) }

/-- The error passed to `next` when the template read fails:
`new HttpError("Failed to load index", 500)` — note: no code argument. -/
def indexLoadError : HttpError :=
  { message := "Failed to load index", status := 500, code := none }

/-- Outcome of the root route: the substituted HTML page; a JSON error
envelope with a status (what a four-parameter error middleware would
render through `createErrorResponse`); or the response of Express's
default final handler — an HTML/plain error body derived from the error's
status, which is not the JSON envelope. -/
inductive RootOutcome where
  | html : RootResponse → RootOutcome
  | errorEnvelope : Nat → ErrorResponse → RootOutcome
  | expressDefault : Nat → RootOutcome
deriving Repr, DecidableEq

/-- The number of parameters the registered `errorHandler` function in
`errors.ts` declares: `(err, _req, res)` — three. -/
def errorHandlerArity : Nat := 3

/-- Express's error dispatch rule: an error passed to `next` is handed
only to middleware whose function declares exactly four parameters
(`(err, req, res, next)`); middleware of any other arity is skipped on the
error path. -/
def expressDispatchesError (arity : Nat) : Bool := arity = 4

/-- The `GET /` handler including the failure path: on a read failure the
route calls `next(new HttpError("Failed to load index", 500))`. The
registered `errorHandler` declares only three parameters, so Express skips
it on the error path and the default final handler renders the 500; the
`createErrorResponse` envelope would be produced only if the registered
handler declared four parameters. -/
def handleRoot (readResult : Option String) (nonce correlationId timestamp : String) :
    RootOutcome :=
  match readResult with
  | some html => .html (serveRoot nonce correlationId html)
  | none =>
      if expressDispatchesError errorHandlerArity then
        .errorEnvelope indexLoadError.status
          (createErrorResponse (.http indexLoadError) correlationId timestamp)
      else .expressDefault indexLoadError.status

/-! ## Rate limiter (`src/server/rateLimit.ts`) -/

/-- The options `rateLimit(...)` is called with, together with the status
and code its `handler` emits. `standardHeaders` defaults to `false` and
`legacyHeaders` to `true` when not passed (express-rate-limit v6). -/
structure RateLimitOptions where
  windowMs : Nat
  maxHits : Nat
  standardHeaders : Bool
  legacyHeaders : Bool
  handlerStatus : Nat
  handlerCode : String
deriving Repr, DecidableEq

/-- The deny-all middleware `denyMiddleware()`: `windowMs: 60_000`,
`max: 0`, header options left at their defaults, handler emitting
`HttpError("Service unavailable", 503, "REDIS_UNAVAILABLE")`. -/
def denyMiddleware : RateLimitOptions :=
  { windowMs := 60000
    maxHits := 0
    standardHeaders := false
    legacyHeaders := true
    handlerStatus := 503
    handlerCode := "REDIS_UNAVAILABLE" }

/-- The connected limiter built by `setupRateLimiter` when the Redis health
check succeeds: 15-minute window, ceiling 100 in production and 1000
otherwise, `standardHeaders: true`, `legacyHeaders: false`, handler
emitting `HttpError("Too many requests", 429, "RATE_LIMIT_EXCEEDED")`. -/
def connectedLimiter (mode : Mode) : RateLimitOptions :=
  { windowMs := 15 * 60 * 1000
    maxHits := if mode = .production then 100 else 1000
    standardHeaders := true
    legacyHeaders := false
    handlerStatus := 429
    handlerCode := "RATE_LIMIT_EXCEEDED" }

/-- `setupRateLimiter`: fails when `REDIS_URL` is undefined; returns the
deny-all middleware when the startup health check fails; otherwise returns
the Redis-backed limiter. The choice is made once, at startup. -/
def setupRateLimiter (redisUrl : Option String) (reachableAtStartup : Bool)
    (mode : Mode) : Except String RateLimitOptions :=
  match redisUrl with
  | none => .error "REDIS_URL not defined"
  | some _ =>
      if reachableAtStartup then .ok (connectedLimiter mode)
      else .ok denyMiddleware

/-- Outcome of one pass through an express-rate-limit middleware. -/
inductive RLOutcome where
  | allow
  | deny (status : Nat) (code : String) (retryAfterSet : Bool)
deriving Repr, DecidableEq

/-- One request through an express-rate-limit middleware: the store
counter is atomically incremented, `hits` is the post-increment count for
the client key within the current window, and the request is handed to the
deny handler exactly when `hits` exceeds `max`. When denied, a
`Retry-After` header is set if either header option is enabled. -/
def rateLimitStep (opts : RateLimitOptions) (hits : Nat) : RLOutcome :=
  if opts.maxHits < hits then
    .deny opts.handlerStatus opts.handlerCode
      (opts.standardHeaders || opts.legacyHeaders)
  else .allow

/-- The response of the limiter installed at startup to a request whose
post-increment hit count is `hits`, at an instant when the store is
currently `reachableNow`. The installed middleware is a fixed value chosen
by `setupRateLimiter`; no code path consults store reachability again, so
`reachableNow` is ignored by the implementation. -/
def limiterResponseAt (redisUrl : Option String) (reachableAtStartup : Bool)
    (mode : Mode) (_reachableNow : Bool) (hits : Nat) : Option RLOutcome :=
  match setupRateLimiter redisUrl reachableAtStartup mode with
  | .error _ => none
  | .ok opts => some (rateLimitStep opts hits)

/-! ## CORS gate (`server.ts`, `createCorsOptions`) -/

/-- The `origin` callback of `createCorsOptions`: `origin` is
`req.headers.origin` (absent for same-origin or non-browser requests).
The source tests `!origin || whitelist.includes(origin)`; JavaScript
falsiness makes `!origin` true both when the header is absent and when it
is the empty string. -/
def corsOriginCheck (whitelist : List String) (origin : Option String) :
    Except HttpError Unit :=
  match origin with
  | none => .ok ()
  | some o =>
      if o = "" || whitelist.contains o then .ok ()
      else .error { message := "Not allowed by CORS", status := 403,
                    code := some "INVALID_ORIGIN" }

/-! ## HTTPS enforcer (`server.ts`, `enforceHttps`) -/

/-- Result of the HTTPS-enforcement middleware. -/
inductive HttpsAction where
  | redirect (status : Nat) (location : String)
  | pass
deriving Repr, DecidableEq

/-- `enforceHttps`: in production, a request whose protocol (as derived
from the trusted proxy header) is `http` is answered with
`res.redirect(301, "https://" + req.headers.host + req.originalUrl)`;
every other request falls through to `next()`. -/
def enforceHttps (mode : Mode) (protocol host originalUrl : String) :
    HttpsAction :=
  if mode = .production ∧ protocol = "http" then
    .redirect 301 ("https://" ++ host ++ originalUrl)
  else .pass

/-! ## Environment validator (`src/config/environment.ts`) -/

/-- The raw process environment fields the schema reads; `none` models an
unset variable. -/
structure RawEnv where
  nodeEnv : Option String
  port : Option String
  redisUrl : Option String
  corsOrigin : Option String
  jwtSecret : Option String
deriving Repr, DecidableEq

/-- A zod issue as rendered by `validateEnv`: the field path and the issue
message. -/
abbrev Issue := String × String

/-- JavaScript `Number(s)` as used by `z.coerce.number()`, modelled on the
string shapes environment variables take: the empty string coerces to `0`,
an optional-sign decimal digit string to the corresponding integer, and
anything else to NaN (`none`). -/
def jsNumber (s : String) : Option Int :=
  match s.data with
  | [] => some 0
  | '-' :: ds => (decDigits ds).map (fun n => -(n : Int))
  | '+' :: ds => (decDigits ds).map (fun n => (n : Int))
  | ds => (decDigits ds).map (fun n => (n : Int))

/-- `z.enum(["development", "production", "test"])` applied to `NODE_ENV`. -/
def parseNodeEnv : Option String → Except (List Issue) String
  | none => .error [("NODE_ENV", "Required")]
  | some v =>
      if v = "development" ∨ v = "production" ∨ v = "test" then .ok v
      else .error [("NODE_ENV",
        "Invalid enum value. Expected \x27development\x27 | \x27production\x27 | \x27test\x27")]

/-- `z.coerce.number().int().min(1).max(65535).default(3000)` applied to
`PORT`. -/
def parsePort : Option String → Except (List Issue) Int
  | none => .ok 3000
  | some s =>
      match jsNumber s with
      | none => .error [("PORT", "Expected number, received nan")]
      | some n =>
          if n < 1 then
            .error [("PORT", "Number must be greater than or equal to 1")]
          else if 65535 < n then
            .error [("PORT", "Number must be less than or equal to 65535")]
          else .ok n

/-- The regular expression `^redis(s)?:\/\/.+$` of `redisUrlSchema`. -/
def redisUrlMatches (s : String) : Bool :=
  (jsStartsWith s "redis://" && 8 < s.length) ||
  (jsStartsWith s "rediss://" && 9 < s.length)

/-- `redisUrlSchema` applied to `REDIS_URL`. -/
def parseRedisUrl : Option String → Except (List Issue) String
  | none => .error [("REDIS_URL", "Required")]
  | some s =>
      if redisUrlMatches s then .ok s
      else .error [("REDIS_URL", "Invalid Redis URL")]

/-- A scheme character of the WHATWG URL grammar. -/
def isSchemeChar (c : Char) : Bool :=
  c.isAlphanum || c = '+' || c = '-' || c = '.'

/-- The special schemes of the WHATWG URL standard, which require an
authority. -/
def specialSchemes : List String := ["http", "https", "ws", "wss", "ftp"]

/-- `new URL(s)` succeeding, modelled from the WHATWG URL constructor the
runtime provides, restricted to the shapes configuration origins take: the
string must begin with a scheme (letter first, then scheme characters)
followed by a colon, and a special scheme must be followed by `//` and a
nonempty remainder. -/
def jsUrlParses (s : String) : Bool :=
  match jsSplit ":" s with
  | [] => false
  | [_] => false
  | scheme :: rest =>
      let remainder := String.intercalate ":" rest
      (match scheme.data with
       | [] => false
       | c :: cs => c.isAlpha && cs.all isSchemeChar) &&
      (if specialSchemes.contains (jsToLower scheme) then
        jsStartsWith remainder "//" && remainder.data.drop 2 ≠ []
       else true)

/-- `corsOriginSchema` applied to `CORS_ORIGIN`: a nonempty string, split
on commas and trimmed; `superRefine` then adds one `Invalid URL` issue per
entry that `new URL` rejects. -/
def parseCors : Option String → Except (List Issue) (List String)
  | none => .error [("CORS_ORIGIN", "Required")]
  | some s =>
      if s = "" then
        .error [("CORS_ORIGIN", "String must contain at least 1 character(s)")]
      else
        let entries := (jsSplit "," s).map jsTrim
        let issues :=
          (entries.filter (fun u => !jsUrlParses u)).map
            (fun _ => (("CORS_ORIGIN", "Invalid URL") : Issue))
        if issues.isEmpty then .ok entries else .error issues

/-- `z.string().min(32, ...)` applied to `JWT_SECRET`. -/
def parseJwtSecret : Option String → Except (List Issue) String
  | none => .error [("JWT_SECRET", "Required")]
  | some s =>
      if s.length < 32 then
        .error [("JWT_SECRET", "JWT_SECRET must be at least 32 characters")]
      else .ok s

/-- The issues contributed by one field parser. -/
def issuesOf {α : Type} : Except (List Issue) α → List Issue
  | .error l => l
  | .ok _ => []

/-- All issues `baseSchema.safeParse` collects, in shape order. -/
def baseIssues (raw : RawEnv) : List Issue :=
  issuesOf (parseNodeEnv raw.nodeEnv) ++ issuesOf (parsePort raw.port) ++
    issuesOf (parseRedisUrl raw.redisUrl) ++
    issuesOf (parseCors raw.corsOrigin) ++
    issuesOf (parseJwtSecret raw.jwtSecret)

/-- The validated configuration value (`Env` in `environment.ts`). -/
structure Env where
  nodeEnv : String
  port : Int
  redisUrl : String
  corsOrigin : List String
  jwtSecret : String
deriving Repr, DecidableEq

/-- `baseSchema.safeParse(raw)`: either every field parses and the typed
record is produced, or the collected issues of all fields are returned. -/
def safeParseBase (raw : RawEnv) : Except (List Issue) Env :=
  if baseIssues raw = [] then
    .ok { nodeEnv := (parseNodeEnv raw.nodeEnv).toOption.getD ""
          port := (parsePort raw.port).toOption.getD 0
          redisUrl := (parseRedisUrl raw.redisUrl).toOption.getD ""
          corsOrigin := (parseCors raw.corsOrigin).toOption.getD []
          jwtSecret := (parseJwtSecret raw.jwtSecret).toOption.getD "" }
  else .error (baseIssues raw)

/-- The error raised by `validateEnv`: either the aggregated zod issues
(`Invalid environment variables: ...`) or the separate production check
(`CORS_ORIGIN must use https URLs in production`). -/
inductive ValidationError where
  | invalidEnvVars (issues : List Issue)
  | httpsRequired
deriving Repr, DecidableEq

/-- The thrown error message, as built in `validateEnv`. -/
def ValidationError.message : ValidationError → String
  | .invalidEnvVars issues =>
      "Invalid environment variables: " ++
        String.intercalate "; " (issues.map (fun i => i.1 ++ ": " ++ i.2))
  | .httpsRequired => "CORS_ORIGIN must use https URLs in production"

/-- The field names a `validateEnv` error names. -/
def ValidationError.namedFields : ValidationError → List String
  | .invalidEnvVars issues => (issues.map Prod.fst).dedup
  | .httpsRequired => ["CORS_ORIGIN"]

/-- `validateEnv` from `environment.ts`: `safeParse`, then — only when the
base schema succeeded — the all-https-in-production check, thrown as its
own error. -/
def validateEnv (raw : RawEnv) : Except ValidationError Env :=
  match safeParseBase raw with
  | .error issues => .error (.invalidEnvVars issues)
  | .ok env =>
      if env.nodeEnv = "production" &&
          env.corsOrigin.any (fun u => !jsStartsWith u "https://") then
        .error .httpsRequired
      else .ok env

/-! ## Theorems -/

/-- C1 (counterexample): when the store is unreachable at the startup
health check, `setupRateLimiter` installs `denyMiddleware`; at a later
instant when store connectivity has been restored (`reachableNow = true`)
the installed middleware still answers 503 with code `REDIS_UNAVAILABLE`,
so the deny-all mode does not last "only until store connectivity is
restored". -/
theorem rateLimiter_deny_persists_after_recovery :
    setupRateLimiter (some "redis://localhost:6379") false .production =
      .ok denyMiddleware ∧
    limiterResponseAt (some "redis://localhost:6379") false .production
      true 1 = some (.deny 503 "REDIS_UNAVAILABLE" true) :=
  ⟨rfl, rfl⟩

/-- C1 (amended): if the store is unreachable at startup, every request —
in every mode, whatever the store's current reachability — is denied with
HTTP 503 and code `REDIS_UNAVAILABLE` (never allowed); the deny-all
middleware is selected once at startup and is never re-evaluated, so the
mode lasts for the process lifetime rather than until connectivity is
restored. -/
theorem rateLimiter_failClosed_startup_permanent (url : String) (mode : Mode)
    (reachableNow : Bool) (hits : Nat) (h : 1 ≤ hits) :
    limiterResponseAt (some url) false mode reachableNow hits =
      some (.deny 503 "REDIS_UNAVAILABLE" true) := by
  unfold limiterResponseAt setupRateLimiter
  simp [rateLimitStep, denyMiddleware, show 0 < hits from h]

/-- Witness for the amended C1 theorem at a concrete input. -/
theorem rateLimiter_failClosed_startup_permanent_witness :
    limiterResponseAt (some "redis://localhost:6379") false .development
      true 5 = some (.deny 503 "REDIS_UNAVAILABLE" true) :=
  rateLimiter_failClosed_startup_permanent "redis://localhost:6379"
    .development true 5 (by decide)

/-- C2 (counterexample): the directive set built in production mode does
contain the WebSocket scheme source `ws:` in `connect-src`, and it is
byte-identical to the development-mode set — `createDirectives` has no
mode-conditional branch at all. -/
theorem csp_connectSrc_ws_in_production :
    "ws:" ∈ (directivesForMode .production "nonceval").connectSrc ∧
    directivesForMode .production "nonceval" =
      directivesForMode .development "nonceval" :=
  ⟨by decide, rfl⟩

/-- C2 (amended): for every nonce the CSP directive set is identical in
every mode, and `connect-src` always — in production included — contains
the WebSocket scheme source `ws:`; there is no mode-conditional branch in
the builder. -/
theorem csp_directives_mode_independent (m1 m2 : Mode) (nonce : String) :
    directivesForMode m1 nonce = directivesForMode m2 nonce ∧
    "ws:" ∈ (directivesForMode m1 nonce).connectSrc := by
  refine ⟨rfl, ?_⟩
  simp [directivesForMode, createDirectives]

/-- C3: with a reachable store in production mode, the limiter uses a
15-minute window with ceiling 100; within one window each of the first 100
requests of a client key is allowed, and every request from the 101st on
is denied with HTTP 429, code `RATE_LIMIT_EXCEEDED` and a `Retry-After`
header. -/
theorem rateLimiter_production_window_ceiling (url : String)
    (reachableNow : Bool) (k : Nat) :
    (connectedLimiter .production).windowMs = 15 * 60 * 1000 ∧
    (connectedLimiter .production).maxHits = 100 ∧
    (1 ≤ k → k ≤ 100 →
      limiterResponseAt (some url) true .production reachableNow k =
        some .allow) ∧
    (101 ≤ k →
      limiterResponseAt (some url) true .production reachableNow k =
        some (.deny 429 "RATE_LIMIT_EXCEEDED" true)) := by
  refine ⟨rfl, rfl, ?_, ?_⟩
  · intro h1 h2
    have hn : ¬ (100 < k) := by omega
    simp [limiterResponseAt, setupRateLimiter, rateLimitStep,
      connectedLimiter, hn]
  · intro h
    have hy : 100 < k := by omega
    simp [limiterResponseAt, setupRateLimiter, rateLimitStep,
      connectedLimiter, hy]

/-- Witness for C3 at the window boundary: request 100 is allowed and
request 101 is denied. -/
theorem rateLimiter_production_window_ceiling_witness :
    limiterResponseAt (some "redis://localhost:6379") true .production
      true 100 = some .allow ∧
    limiterResponseAt (some "redis://localhost:6379") true .production
      true 101 = some (.deny 429 "RATE_LIMIT_EXCEEDED" true) :=
  ⟨(rateLimiter_production_window_ceiling "redis://localhost:6379" true
      100).2.2.1 (by decide) (by decide),
   (rateLimiter_production_window_ceiling "redis://localhost:6379" true
      101).2.2.2 (by decide)⟩

/-- C4: the HTTP 500 for a failed read of the HTML template never carries
the JSON error envelope at all. `errorHandler` declares three parameters
while Express dispatches errors only to four-parameter middleware, so on
this path the envelope renderer is unreachable and the default final
handler renders the 500 — contradicting the repository's own test, which
expects `success: false` and `meta.correlationId` in the body of this 500.
Moreover even the unreachable renderer would attach no code here, since
the route builds `HttpError("Failed to load index", 500)` without one. -/
theorem template_read_error_bypasses_envelope (nonce cid ts : String) :
    expressDispatchesError errorHandlerArity = false ∧
    handleRoot none nonce cid ts = .expressDefault 500 ∧
    (createErrorResponse (.http indexLoadError) cid ts).error.code = none :=
  ⟨rfl, rfl, rfl⟩

/-- C5 (counterexample): a configuration with two invalid fields among the
claim's list — `PORT` is 0 and the production all-https origin rule is
violated by `http://a.example` — raises an error naming only `PORT`: the
https rule runs in a separate check that is skipped whenever the base
schema fails. -/
theorem validateEnv_misses_https_violation :
    validateEnv { nodeEnv := some "production", port := some "0",
                  redisUrl := some "redis://localhost:6379",
                  corsOrigin := some "http://a.example",
                  jwtSecret := some "0123456789abcdef0123456789abcdef" } =
      .error (.invalidEnvVars
        [("PORT", "Number must be greater than or equal to 1")]) ∧
    (ValidationError.invalidEnvVars
        [("PORT", "Number must be greater than or equal to 1")]).message =
      "Invalid environment variables: PORT: Number must be greater than or equal to 1" ∧
    jsStartsWith "http://a.example" "https://" = false :=
  ⟨rfl, rfl, rfl⟩

/-- C5 (amended): all violations of the base schema checks (mode, port,
origin URL syntax, store URL scheme, secret length) are aggregated into
one error naming every such invalid field; the all-https-in-production
origin rule is checked only after the base schema passes and is then
reported alone, so it is never aggregated with other violations. -/
theorem validateEnv_error_reporting (raw : RawEnv) :
    (baseIssues raw ≠ [] →
      validateEnv raw = .error (.invalidEnvVars (baseIssues raw)) ∧
      (∀ i ∈ issuesOf (parseNodeEnv raw.nodeEnv), i ∈ baseIssues raw) ∧
      (∀ i ∈ issuesOf (parsePort raw.port), i ∈ baseIssues raw) ∧
      (∀ i ∈ issuesOf (parseRedisUrl raw.redisUrl), i ∈ baseIssues raw) ∧
      (∀ i ∈ issuesOf (parseCors raw.corsOrigin), i ∈ baseIssues raw) ∧
      (∀ i ∈ issuesOf (parseJwtSecret raw.jwtSecret), i ∈ baseIssues raw)) ∧
    (∀ env, safeParseBase raw = .ok env → env.nodeEnv = "production" →
      env.corsOrigin.any (fun u => !jsStartsWith u "https://") = true →
      validateEnv raw = .error .httpsRequired) := by
  constructor
  · intro h
    refine ⟨by simp [validateEnv, safeParseBase, h], ?_, ?_, ?_, ?_, ?_⟩ <;>
      · intro i hi
        simp only [baseIssues, List.mem_append]
        tauto
  · intro env henv hprod hany
    simp [validateEnv, henv, hprod, hany]

/-- Witness for the amended C5 theorem: a configuration with two base
violations (unknown mode and out-of-range port) gets both named in one
error, and a base-valid production configuration with an `http://` origin
raises the separate https error. -/
theorem validateEnv_error_reporting_witness :
    validateEnv { nodeEnv := some "staging", port := some "0",
                  redisUrl := some "redis://localhost:6379",
                  corsOrigin := some "https://a.example",
                  jwtSecret := some "0123456789abcdef0123456789abcdef" } =
      .error (.invalidEnvVars
        [("NODE_ENV",
          "Invalid enum value. Expected \x27development\x27 | \x27production\x27 | \x27test\x27"),
         ("PORT", "Number must be greater than or equal to 1")]) ∧
    validateEnv { nodeEnv := some "production", port := none,
                  redisUrl := some "redis://localhost:6379",
                  corsOrigin := some "http://a.example",
                  jwtSecret := some "0123456789abcdef0123456789abcdef" } =
      .error .httpsRequired := by
  constructor
  · exact ((validateEnv_error_reporting
      { nodeEnv := some "staging", port := some "0",
        redisUrl := some "redis://localhost:6379",
        corsOrigin := some "https://a.example",
        jwtSecret := some "0123456789abcdef0123456789abcdef" }).1
      (by decide)).1
  · exact (validateEnv_error_reporting
      { nodeEnv := some "production", port := none,
        redisUrl := some "redis://localhost:6379",
        corsOrigin := some "http://a.example",
        jwtSecret := some "0123456789abcdef0123456789abcdef" }).2
      { nodeEnv := "production", port := 3000,
        redisUrl := "redis://localhost:6379",
        corsOrigin := ["http://a.example"],
        jwtSecret := "0123456789abcdef0123456789abcdef" }
      rfl rfl rfl

/-- C6: for a template whose single `__CSP_NONCE__` placeholder splits it
into `pre` and `post`, the served body substitutes the request's nonce at
the placeholder, and the `Content-Security-Policy` header of the same
response is rendered from the directives that embed the same nonce in
`script-src` and `style-src`: header nonce and body nonce are one value. -/
theorem csp_nonce_header_body_roundtrip (nonce cid tmpl pre post : String)
    (h : jsSplit "__CSP_NONCE__" tmpl = [pre, post]) :
    (serveRoot nonce cid tmpl).body = pre ++ nonce ++ post ∧
    List.lookup "Content-Security-Policy" (serveRoot nonce cid tmpl).headers =
      some (renderDirectives (createDirectives nonce)) ∧
    "\x27nonce-" ++ nonce ++ "\x27" ∈ (createDirectives nonce).scriptSrc ∧
    "\x27nonce-" ++ nonce ++ "\x27" ∈ (createDirectives nonce).styleSrc := by
  refine ⟨?_, rfl, ?_, ?_⟩
  · show jsJoin nonce (jsSplit "__CSP_NONCE__" tmpl) = pre ++ nonce ++ post
    rw [h]
    rfl
  · simp [createDirectives]
  · simp [createDirectives]

/-- Witness for C6 on a concrete template. -/
theorem csp_nonce_header_body_roundtrip_witness :
    jsSplit "__CSP_NONCE__" "<script nonce=\x22__CSP_NONCE__\x22></script>" =
      ["<script nonce=\x22", "\x22></script>"] ∧
    (serveRoot "abc123" "cid-1"
        "<script nonce=\x22__CSP_NONCE__\x22></script>").body =
      "<script nonce=\x22" ++ "abc123" ++ "\x22></script>" :=
  ⟨by decide,
   (csp_nonce_header_body_roundtrip "abc123" "cid-1"
      "<script nonce=\x22__CSP_NONCE__\x22></script>"
      "<script nonce=\x22" "\x22></script>" (by decide)).1⟩

/-- C7: a response that traverses the full middleware chain carries
`X-Correlation-Id`, `Content-Security-Policy`, `X-Frame-Options: DENY`,
`X-Content-Type-Options: nosniff` and `Strict-Transport-Security`, but no
`Referrer-Policy` header: `securityMiddleware()` installs only
`contentSecurityPolicy`, `frameguard`, `noSniff` and `hsts`, contradicting
the repository's own test that expects `referrer-policy: no-referrer`. -/
theorem securityHeaders_missing_referrer_policy (cid nonce : String) :
    List.lookup "Referrer-Policy" (pipelineHeaders cid nonce) = none ∧
    List.lookup "X-Correlation-Id" (pipelineHeaders cid nonce) = some cid ∧
    List.lookup "Content-Security-Policy" (pipelineHeaders cid nonce) =
      some (renderDirectives (createDirectives nonce)) ∧
    List.lookup "X-Frame-Options" (pipelineHeaders cid nonce) = some "DENY" ∧
    List.lookup "X-Content-Type-Options" (pipelineHeaders cid nonce) =
      some "nosniff" ∧
    List.lookup "Strict-Transport-Security" (pipelineHeaders cid nonce) =
      some "max-age=31536000; includeSubDomains" :=
  ⟨rfl, rfl, rfl, rfl, rfl, rfl⟩

/-- C8 (counterexample): a request whose `Origin` header is present but
empty is allowed even though the empty string matches no allow-list entry
— the gate tests JavaScript falsiness (`!origin`), which conflates an
absent header with an empty one. -/
theorem cors_allows_empty_origin_header :
    corsOriginCheck ["https://allowed.example"] (some "") = .ok () ∧
    (["https://allowed.example"].contains "") = false :=
  ⟨rfl, rfl⟩

/-- C8 (amended): the gate allows every request with no `Origin` header
and every request whose `Origin` header is the empty string; a request
with a nonempty `Origin` is allowed exactly when the origin equals an
allow-list entry, and otherwise rejected with HTTP 403 and code
`INVALID_ORIGIN`. -/
theorem corsOriginCheck_allowlist (wl : List String) (o : String) :
    corsOriginCheck wl none = .ok () ∧
    corsOriginCheck wl (some "") = .ok () ∧
    (wl.contains o = true → corsOriginCheck wl (some o) = .ok ()) ∧
    (o ≠ "" → wl.contains o = false →
      corsOriginCheck wl (some o) =
        .error { message := "Not allowed by CORS", status := 403,
                 code := some "INVALID_ORIGIN" }) := by
  refine ⟨rfl, rfl, ?_, ?_⟩
  · intro h
    have hm : o ∈ wl := by simpa using h
    simp [corsOriginCheck, hm]
  · intro h1 h2
    have hm : o ∉ wl := by simpa using h2
    simp [corsOriginCheck, h1, hm]

/-- Witness for the amended C8 theorem: a whitelisted origin is allowed,
a foreign origin is rejected with 403 `INVALID_ORIGIN`. -/
theorem corsOriginCheck_allowlist_witness :
    corsOriginCheck ["https://allowed.example"]
      (some "https://allowed.example") = .ok () ∧
    corsOriginCheck ["https://allowed.example"]
      (some "https://evil.example") =
      .error { message := "Not allowed by CORS", status := 403,
               code := some "INVALID_ORIGIN" } :=
  ⟨(corsOriginCheck_allowlist ["https://allowed.example"]
      "https://allowed.example").2.2.1 (by decide),
   (corsOriginCheck_allowlist ["https://allowed.example"]
      "https://evil.example").2.2.2 (by decide) (by decide)⟩

/-- C9: in production a request whose proxy-derived protocol is `http` is
answered with a 301 redirect to `https://` ++ the same host and original
URL; any other protocol in production, and every request in development
and test mode, passes through unchanged. -/
theorem enforceHttps_production_redirect (proto host url : String) :
    enforceHttps .production "http" host url =
      .redirect 301 ("https://" ++ host ++ url) ∧
    (proto ≠ "http" → enforceHttps .production proto host url = .pass) ∧
    enforceHttps .development proto host url = .pass ∧
    enforceHttps .test proto host url = .pass := by
  refine ⟨rfl, ?_, ?_, ?_⟩
  · intro h
    simp [enforceHttps, h]
  · simp [enforceHttps]
  · simp [enforceHttps]

/-- Witness for C9 at concrete requests. -/
theorem enforceHttps_production_redirect_witness :
    enforceHttps .production "https" "site.example" "/page" = .pass ∧
    enforceHttps .production "http" "site.example" "/page" =
      .redirect 301 ("https://" ++ "site.example" ++ "/page") :=
  ⟨(enforceHttps_production_redirect "https" "site.example" "/page").2.1
      (by decide),
   (enforceHttps_production_redirect "https" "site.example" "/page").1⟩

/-- C10: the rendered envelope replaces the message of every error with
status 500 or greater by the fixed string `Internal server error`, and
preserves the original message for every error with status below 500. -/
theorem errorMessage_sanitized_for_5xx (err : JsError) (cid ts : String) :
    (500 ≤ err.status →
      (createErrorResponse err cid ts).error.message =
        "Internal server error") ∧
    (err.status < 500 →
      (createErrorResponse err cid ts).error.message = err.message) := by
  constructor
  · intro h
    simp [createErrorResponse, h]
  · intro h
    simp [createErrorResponse, Nat.not_le.mpr h]

/-- Witness for C10: a 503 error is sanitized, a 404 keeps its message. -/
theorem errorMessage_sanitized_for_5xx_witness :
    (createErrorResponse
        (.http ⟨"secret detail", 503, some "REDIS_UNAVAILABLE"⟩)
        "cid-1" "ts-1").error.message = "Internal server error" ∧
    (createErrorResponse (.http ⟨"Not Found", 404, none⟩)
        "cid-1" "ts-1").error.message = "Not Found" :=
  ⟨(errorMessage_sanitized_for_5xx
      (.http ⟨"secret detail", 503, some "REDIS_UNAVAILABLE"⟩)
      "cid-1" "ts-1").1 (by decide),
   (errorMessage_sanitized_for_5xx (.http ⟨"Not Found", 404, none⟩)
      "cid-1" "ts-1").2 (by decide)⟩
